import Mathlib

/-!
Shallow embedding of the clearscreen crate's strategy dispatcher (`src/lib.rs`).

The crate resolves "clear the terminal screen" into one of several concrete
strategies and executes the chosen one against an output sink.  The black-box
services it consumes (the terminfo capability database, the OS termios calls,
the Windows console calls, process spawning) are modelled as ambient inputs in
an `Env` record; the sink is modelled as a `Sink` record that logs written
bytes and can be scheduled to fail.  `clear_to` below is a line-by-line
translation of `ClearScreen::clear_to`.
-/

namespace Clearscreen

/-- Exit status of a spawned command (`std::process::ExitStatus`):
`success` is true exactly when the code is zero. -/
structure ExitStatus where
  code : Nat
deriving DecidableEq, Repr

/-- `ExitStatus::success()`. -/
def ExitStatus.success (s : ExitStatus) : Bool := s.code == 0

/-- The crate's `Error` enum (src/lib.rs).  Payloads of the black-box error
types (`io::Error`, `nix::Error`, `terminfo::Error`) are abstracted to numeric
codes; `Command` carries the command name and exit status as in the source. -/
inductive Error where
  | Io : Nat → Error
  | Command : String → ExitStatus → Error
  | Nix : Nat → Error
  | Terminfo : Nat → Error
  | TerminfoCap : String → Error
deriving DecidableEq, Repr

/-- Model of an `io::Write` sink: the bytes written so far plus a failure
schedule.  `failAt = some k` makes the k-th `write_all` call from now fail
with io error `errCode` (writing nothing); `failAt = none` never fails. -/
structure Sink where
  written : List Nat
  failAt : Option Nat
  errCode : Nat
deriving DecidableEq, Repr

/-- `w.write_all(b)`. -/
def write_all (w : Sink) (b : List Nat) : Except Error Unit × Sink :=
  match w.failAt with
  | some 0 => (.error (.Io w.errCode), w)
  | some (k + 1) => (.ok (), { written := w.written ++ b, failAt := some k, errCode := w.errCode })
  | none => (.ok (), { written := w.written ++ b, failAt := none, errCode := w.errCode })

/-- Parameter-expansion context (`terminfo::expand::Context`), abstracted to a
state token: what matters to the dispatcher is how the context is threaded
between successive expansions, not its internal fields. -/
structure Context where
  st : Nat
deriving DecidableEq, Repr

/-- `Context::default()`. -/
def Context.default : Context := ⟨0⟩

/-- A raw capability from the database.  Expanding it consumes the expansion
context and yields the emitted bytes and the updated context, or a terminfo
error (per the expansion contract of the capability-database service). -/
structure Cap where
  expandFn : Context → Except Nat (List Nat × Context)

/-- The capability lookups `clear_to` performs on a loaded
`terminfo::Database`; `none` models an absent capability. -/
structure Database where
  clearScreen : Option Cap
  user3 : Option Cap
  reset1String : Option Cap
  reset2String : Option Cap
  reset3String : Option Cap
  resetFile : Option Cap
  init1String : Option Cap
  init2String : Option Cap
  init3String : Option Cap
  initFile : Option Cap

/-- The first capability group of the `TerminfoReset` arm: rs1, rs2, rs3, rf. -/
def rsGroup (info : Database) : List (Option Cap) :=
  [info.reset1String, info.reset2String, info.reset3String, info.resetFile]

/-- The second capability group of the `TerminfoReset` arm: is1, is2, is3, if. -/
def isGroup (info : Database) : List (Option Cap) :=
  [info.init1String, info.init2String, info.init3String, info.initFile]

/-- `seq.expand().with(&mut ctx).to(&mut w)`: expand the capability in `ctx`
and write the produced bytes to the sink. -/
def expandTo (c : Cap) (ctx : Context) (w : Sink) : Except Error Context × Sink :=
  match c.expandFn ctx with
  | .error e => (.error (.Terminfo e), w)
  | .ok (bs, ctx2) =>
    match write_all w bs with
    | (.error e, w2) => (.error e, w2)
    | (.ok _, w2) => (.ok ctx2, w2)

/-- One group of the `TerminfoReset` arm: for each capability in order, if it
is available, set the `reset` flag and expand-and-emit it, threading the
context; the `?` operator propagates the first error. -/
def resetGroup (caps : List (Option Cap)) (ctx : Context) (reset : Bool) (w : Sink) :
    Except Error Unit × (Context × Bool × Sink) :=
  match caps with
  | [] => (.ok (), (ctx, reset, w))
  | none :: rest => resetGroup rest ctx reset w
  | some c :: rest =>
    match expandTo c ctx w with
    | (.error e, w2) => (.error e, (ctx, true, w2))
    | (.ok ctx2, w2) => resetGroup rest ctx2 true w2

/-! ### termios model (`mod unix`)

The four flag groups are modelled as finite sets of the flags the nix termios
binding defines (nix truncates unknown bits on `tcgetattr`, so a group *is* a
subset of the defined flags); bitflags `insert` is union and `remove(all())`
is subtraction of the full universe. -/

/-- The input flags defined by the nix termios binding. -/
inductive InputFlag where
  | IGNBRK | BRKINT | IGNPAR | PARMRK | INPCK | ISTRIP | INLCR
  | IGNCR | ICRNL | IXON | IXANY | IXOFF | IMAXBEL | IUTF8
deriving DecidableEq, Repr, Fintype

/-- The output flags defined by the nix termios binding. -/
inductive OutputFlag where
  | OPOST | OLCUC | ONLCR | OCRNL | ONOCR | ONLRET | OFILL | OFDEL
deriving DecidableEq, Repr, Fintype

/-- The control flags defined by the nix termios binding. -/
inductive ControlFlag where
  | CSTOPB | CREAD | PARENB | PARODD | HUPCL | CLOCAL
deriving DecidableEq, Repr, Fintype

/-- The local flags defined by the nix termios binding. -/
inductive LocalFlag where
  | ISIG | ICANON | ECHO | ECHOE | ECHOK | ECHONL | NOFLSH
  | TOSTOP | ECHOCTL | ECHOPRT | ECHOKE | FLUSHO | PENDIN | IEXTEN
deriving DecidableEq, Repr, Fintype

/-- `nix::sys::termios::Termios`, restricted to the four flag groups the crate
touches (`control_chars` and the rest are carried through unchanged by the
source and are omitted). -/
structure Termios where
  input_flags : Finset InputFlag
  output_flags : Finset OutputFlag
  control_flags : Finset ControlFlag
  local_flags : Finset LocalFlag
deriving DecidableEq

/-- `unix::reset_termios`: remove `all()` from each of the four groups. -/
def reset_termios (t : Termios) : Termios :=
  { input_flags := t.input_flags \ Finset.univ,
    output_flags := t.output_flags \ Finset.univ,
    control_flags := t.control_flags \ Finset.univ,
    local_flags := t.local_flags \ Finset.univ }

/-- The mutator closure of `unix::vt_cooked`. -/
def vt_cooked_flags (t : Termios) : Termios :=
  { t with
    input_flags := t.input_flags ∪
      {.BRKINT, .ICRNL, .IGNPAR, .ISTRIP, .IXON},
    output_flags := t.output_flags ∪ {.OPOST},
    local_flags := t.local_flags ∪ {.ICANON, .ISIG} }

/-- The mutator closure of `unix::vt_well_done`. -/
def vt_well_done_flags (t : Termios) : Termios :=
  { t with
    input_flags := t.input_flags ∪
      {.BRKINT, .ICRNL, .IUTF8, .IGNPAR, .IMAXBEL, .ISTRIP, .IXON},
    output_flags := t.output_flags ∪ {.ONLCR, .OPOST},
    control_flags := t.control_flags ∪ {.CREAD},
    local_flags := t.local_flags ∪ {.ICANON, .ISIG} }

/-- OS-side observations `unix::write_termios` makes: the `isatty(STDIN)`
check, the `tcgetattr` results on stdin and on the opened `/dev/tty`, the
outcome of opening `/dev/tty`, and whether each `tcsetattr` fails (with a nix
error code). -/
structure TtyEnv where
  isatty_stdin : Except Nat Bool
  tcgetattr_stdin : Except Nat Termios
  open_tty : Except Nat Unit
  tcgetattr_tty : Except Nat Termios
  tcsetattr_stdin_err : Option Nat
  tcsetattr_tty_err : Option Nat

/-- `unix::write_termios`: pick the controlling terminal (stdin if it is a
tty, else `/dev/tty`), read the attributes, reset every flag group, apply the
mutator, and write the result back.  For observability the model returns the
`Termios` handed to `tcsetattr` on success (the source returns `()`). -/
def write_termios (f : Termios → Termios) (env : TtyEnv) : Except Error Termios :=
  match env.isatty_stdin with
  | .error e => .error (.Nix e)
  | .ok true =>
    match env.tcgetattr_stdin with
    | .error e => .error (.Nix e)
    | .ok t =>
      let t2 := f (reset_termios t)
      match env.tcsetattr_stdin_err with
      | some e => .error (.Nix e)
      | none => .ok t2
  | .ok false =>
    match env.open_tty with
    | .error e => .error (.Io e)
    | .ok _ =>
      match env.tcgetattr_tty with
      | .error e => .error (.Nix e)
      | .ok t =>
        let t2 := f (reset_termios t)
        match env.tcsetattr_tty_err with
        | some e => .error (.Nix e)
        | none => .ok t2

/-- `unix::vt_cooked`. -/
def vt_cooked (env : TtyEnv) : Except Error Termios :=
  write_termios vt_cooked_flags env

/-- `unix::vt_well_done`. -/
def vt_well_done (env : TtyEnv) : Except Error Termios :=
  write_termios vt_well_done_flags env

/-! ### the dispatcher -/

/-- The `ClearScreen` strategy enum. -/
inductive ClearScreen where
  | Terminfo
  | TerminfoScreen
  | TerminfoScrollback
  | TerminfoReset
  | XtermClear
  | XtermReset
  | TputClear
  | TputReset
  | Cls
  | WindowsVt
  | WindowsVtClear
  | WindowsConsoleClear
  | WindowsConsoleBlank
  | WindowsCooked
  | VtRis
  | VtLeaveAlt
  | VtCooked
  | VtWellDone
deriving DecidableEq, Repr

/-- Ambient results of the black-box services `clear_to` consumes:
`Database::from_env()`, the three spawned commands' `status()` calls, the
`win::` console calls, and the termios observations. -/
structure Env where
  db : Except Nat Database
  tput_clear : Except Nat ExitStatus
  tput_reset : Except Nat ExitStatus
  cls : Except Nat ExitStatus
  win_vt : Except Error Unit
  win_clear : Except Error Unit
  win_blank : Except Error Unit
  win_cooked : Except Error Unit
  tty : TtyEnv

/-- `const ESC: &[u8] = b"\x1b"`. -/
def ESC : List Nat := [0x1b]

/-- `const CSI: &[u8] = b"\x1b["`. -/
def CSI : List Nat := [0x1b, 0x5b]

/-- `const RIS: &[u8] = b"c"`. -/
def RIS : List Nat := [0x63]

/-- `b"H"`. -/
def CURSOR_HOME : List Nat := [0x48]

/-- `b"2J"`. -/
def ERASE_SCREEN : List Nat := [0x32, 0x4a]

/-- `b"3J"`. -/
def ERASE_SCROLLBACK : List Nat := [0x33, 0x4a]

/-- `b"!p"` (soft terminal reset). -/
def STR : List Nat := [0x21, 0x70]

/-- `b"?3;4l"`. -/
def RESET_WIDTH_AND_SCROLL : List Nat := [0x3f, 0x33, 0x3b, 0x34, 0x6c]

/-- `b"4l"`. -/
def RESET_REPLACE : List Nat := [0x34, 0x6c]

/-- `b">"`. -/
def RESET_KEYPAD : List Nat := [0x3e]

/-- `b"?69l"`. -/
def RESET_MARGINS : List Nat := [0x3f, 0x36, 0x39, 0x6c]

/-- `b"?1049l"`. -/
def LEAVE_ALT : List Nat := [0x3f, 0x31, 0x30, 0x34, 0x39, 0x6c]

/-- A sequence of `write_all` calls, stopping at the first error. -/
def writeChain (w : Sink) (bs : List (List Nat)) : Except Error Unit × Sink :=
  match bs with
  | [] => (.ok (), w)
  | b :: rest =>
    match write_all w b with
    | (.error e, w2) => (.error e, w2)
    | (.ok _, w2) => writeChain w2 rest

/-- The `XtermClear` arm's writes (also reused by `WindowsVtClear`, which
calls `Self::XtermClear.clear_to(w)`). -/
def xterm_clear (w : Sink) : Except Error Unit × Sink :=
  writeChain w [CSI, CURSOR_HOME, CSI, ERASE_SCREEN, CSI, ERASE_SCROLLBACK]

/-- An OS call that does not touch the sink, followed by `?`. -/
def osCall (r : Except Error Unit) (w : Sink) : Except Error Unit × Sink :=
  match r with
  | .error e => (.error e, w)
  | .ok _ => (.ok (), w)

/-- `ClearScreen::clear_to`: performs the clearing action against the sink.
On error the sink reached so far is returned alongside (the caller keeps the
borrowed writer, so its contents remain observable). -/
def clear_to (s : ClearScreen) (env : Env) (w : Sink) : Except Error Unit × Sink :=
  match s with
  | .Terminfo =>
    match env.db with
    | .error e => (.error (.Terminfo e), w)
    | .ok info =>
      match info.clearScreen with
      | none => (.error (.TerminfoCap "clear"), w)
      | some seq =>
        match expandTo seq Context.default w with
        | (.error e, w1) => (.error e, w1)
        | (.ok ctx1, w1) =>
          match info.user3 with
          | none => (.ok (), w1)
          | some seq2 =>
            match expandTo seq2 ctx1 w1 with
            | (.error e, w2) => (.error e, w2)
            | (.ok _, w2) => (.ok (), w2)
  | .TerminfoScreen =>
    match env.db with
    | .error e => (.error (.Terminfo e), w)
    | .ok info =>
      match info.clearScreen with
      | none => (.error (.TerminfoCap "clear"), w)
      | some seq =>
        match expandTo seq Context.default w with
        | (.error e, w1) => (.error e, w1)
        | (.ok _, w1) => (.ok (), w1)
  | .TerminfoScrollback =>
    match env.db with
    | .error e => (.error (.Terminfo e), w)
    | .ok info =>
      match info.user3 with
      | none => (.error (.TerminfoCap "E3"), w)
      | some seq =>
        match expandTo seq Context.default w with
        | (.error e, w1) => (.error e, w1)
        | (.ok _, w1) => (.ok (), w1)
  | .TerminfoReset =>
    match env.db with
    | .error e => (.error (.Terminfo e), w)
    | .ok info =>
      match resetGroup (rsGroup info) Context.default false w with
      | (.error e, (_, _, w1)) => (.error e, w1)
      | (.ok _, (ctx1, r1, w1)) =>
        if r1 then (.ok (), w1)
        else
          match resetGroup (isGroup info) ctx1 r1 w1 with
          | (.error e, (_, _, w2)) => (.error e, w2)
          | (.ok _, (_, r2, w2)) =>
            if r2 then (.ok (), w2) else (.error (.TerminfoCap "reset"), w2)
  | .XtermClear => xterm_clear w
  | .XtermReset =>
    writeChain w
      [ESC, RIS, CSI, STR, CSI, RESET_WIDTH_AND_SCROLL, CSI, RESET_REPLACE,
        ESC, RESET_KEYPAD, CSI, RESET_MARGINS]
  | .TputClear =>
    match env.tput_clear with
    | .error e => (.error (.Io e), w)
    | .ok status =>
      if status.success then (.ok (), w)
      else (.error (.Command "tput clear" status), w)
  | .TputReset =>
    match env.tput_reset with
    | .error e => (.error (.Io e), w)
    | .ok status =>
      if status.success then (.ok (), w)
      else (.error (.Command "tput reset" status), w)
  | .Cls =>
    match env.cls with
    | .error e => (.error (.Io e), w)
    | .ok status =>
      if status.success then (.ok (), w)
      else (.error (.Command "cls" status), w)
  | .WindowsVt => osCall env.win_vt w
  | .WindowsVtClear =>
    let vtres := env.win_vt
    match xterm_clear w with
    | (.error e, w1) => (.error e, w1)
    | (.ok _, w1) =>
      match vtres with
      | .error e => (.error e, w1)
      | .ok _ => (.ok (), w1)
  | .WindowsConsoleClear => osCall env.win_clear w
  | .WindowsConsoleBlank => osCall env.win_blank w
  | .WindowsCooked => osCall env.win_cooked w
  | .VtRis => writeChain w [ESC, RIS]
  | .VtLeaveAlt => writeChain w [CSI, LEAVE_ALT]
  | .VtCooked => osCall ((vt_cooked env.tty).map fun _ => ()) w
  | .VtWellDone => osCall ((vt_well_done env.tty).map fun _ => ()) w

/-- Modelled from the spec: the platform/environment signals the
default-strategy decision table reads (`impl Default for ClearScreen` is not
present in the repository's sources). -/
structure Platform where
  native_console : Bool
  posix_like : Bool
  db_usable : Bool

/-- Modelled from the spec: the default-strategy decision table of §4.1 —
a native-console platform chooses the combined native-console strategy, a
POSIX-like platform with a usable capability database chooses the
combined-reset strategy, and anything else falls back to the fixed
xterm-style clear.  The body of `impl Default for ClearScreen` is missing
from the sources. -/
def default_strategy (p : Platform) : ClearScreen :=
  if p.native_console then .WindowsVtClear
  else if p.posix_like && p.db_usable then .Terminfo
  else .XtermClear

/-- `pub fn clear()`: `ClearScreen::default().clear()`, the sink being the
process's standard output (passed here explicitly). -/
def clear (p : Platform) (env : Env) (w : Sink) : Except Error Unit × Sink :=
  clear_to (default_strategy p) env w

/-! ### declarative emission of a capability group (used in statements) -/

/-- What a capability group should emit: the concatenation of the expansions
of its available capabilities, threading a single expansion context through
them left to right; fails if any expansion fails. -/
def groupEmits (caps : List (Option Cap)) (ctx : Context) :
    Except Nat (List Nat × Context) :=
  match caps with
  | [] => .ok ([], ctx)
  | none :: rest => groupEmits rest ctx
  | some c :: rest =>
    match c.expandFn ctx with
    | .error e => .error e
    | .ok (bs, ctx2) =>
      match groupEmits rest ctx2 with
      | .error e => .error e
      | .ok (bs2, ctx3) => .ok (bs ++ bs2, ctx3)

/-! ### witness fixtures -/

/-- A database with every capability absent. -/
def dbEmpty : Database :=
  ⟨none, none, none, none, none, none, none, none, none, none⟩

/-- A capability that expands to fixed bytes and leaves the context unchanged. -/
def capConst (bs : List Nat) : Cap := ⟨fun ctx => .ok (bs, ctx)⟩

/-- A capability whose expansion bumps the context token and emits the old one. -/
def capCtx : Cap := ⟨fun ctx => .ok ([ctx.st], ⟨ctx.st + 1⟩)⟩

/-- A capability whose expansion always fails with terminfo error `e`. -/
def capFail (e : Nat) : Cap := ⟨fun _ => .error e⟩

/-- A tty environment: stdin is a tty, all calls succeed, attributes empty. -/
def tty0 : TtyEnv := ⟨.ok true, .ok ⟨∅, ∅, ∅, ∅⟩, .ok (), .ok ⟨∅, ∅, ∅, ∅⟩, none, none⟩

/-- A concrete environment for witnesses. -/
def env0 : Env := ⟨.ok dbEmpty, .ok ⟨0⟩, .ok ⟨2⟩, .error 5, .ok (), .ok (), .ok (), .ok (), tty0⟩

/-- A fresh, never-failing sink. -/
def w0 : Sink := ⟨[], none, 0⟩

/-- `env0` with a given capability database. -/
def envOf (d : Database) : Env := { env0 with db := .ok d }

/-- A database with only rs2 and rf available, both context-threading. -/
def dbRs : Database :=
  { dbEmpty with reset2String := some capCtx, resetFile := some capCtx }

/-- A database with only the primary clear capability available. -/
def dbClearOnly : Database := { dbEmpty with clearScreen := some (capConst [7, 8]) }

/-- A database with only the scrollback capability available. -/
def dbE3 : Database := { dbEmpty with user3 := some (capConst [4]) }

/-- A database whose scrollback capability fails to expand. -/
def dbClearFailE3 : Database :=
  { dbEmpty with clearScreen := some (capConst [7, 8]), user3 := some (capFail 6) }

/-- A database with both the clear and scrollback capabilities available. -/
def dbClearE3 : Database :=
  { dbEmpty with clearScreen := some (capConst [7, 8]), user3 := some (capConst [4]) }

/-! ### helper lemmas -/

/-- A chain of writes on a never-failing sink cannot end in an error. -/
theorem writeChain_error_code (bs : List (List Nat)) (w : Sink) (e : Error)
    (h : (writeChain w bs).1 = .error e) : e = .Io w.errCode := by
  induction bs generalizing w with
  | nil => simp [writeChain] at h
  | cons b rest ih =>
    rcases w with ⟨ws, fa, ec⟩
    match fa with
    | none => exact ih ⟨ws ++ b, none, ec⟩ (by simpa [writeChain, write_all] using h)
    | some 0 =>
      simp [writeChain, write_all] at h
      simp [h]
    | some (k + 1) =>
      exact ih ⟨ws ++ b, some k, ec⟩ (by simpa [writeChain, write_all] using h)

/-- A chain of writes whose sink fails before the chain's end returns the
sink's io error. -/
theorem writeChain_fail (bs : List (List Nat)) (ws : List Nat) (ec k : Nat)
    (h : k < bs.length) :
    (writeChain ⟨ws, some k, ec⟩ bs).1 = .error (.Io ec) := by
  induction bs generalizing ws k with
  | nil => simp at h
  | cons b rest ih =>
    match k with
    | 0 => simp [writeChain, write_all]
    | k + 1 =>
      simp only [writeChain, write_all]
      exact ih (ws ++ b) k (by simpa using Nat.lt_of_succ_lt_succ h)

/-! ### the claims -/

/-- C2: each fixed-sequence strategy writes exactly the literal bytes of the
wire table, in order — `XtermClear` writes `ESC [ H`, `ESC [ 2 J`, `ESC [ 3 J`;
`XtermReset` writes `ESC c`, `ESC [ ! p`, `ESC [ ? 3 ; 4 l`, `ESC [ 4 l`,
`ESC >`, `ESC [ ? 6 9 l`; `VtRis` writes `ESC c`; `VtLeaveAlt` writes
`ESC [ ? 1 0 4 9 l` — and these strategies fail only when a sink write fails
(any error they return is the sink's io error). -/
theorem C2_fixed_sequences (env : Env) (w : Sink) :
    (w.failAt = none →
      clear_to .XtermClear env w =
        (.ok (), ⟨w.written ++
          [0x1b, 0x5b, 0x48, 0x1b, 0x5b, 0x32, 0x4a, 0x1b, 0x5b, 0x33, 0x4a],
          none, w.errCode⟩) ∧
      clear_to .XtermReset env w =
        (.ok (), ⟨w.written ++
          [0x1b, 0x63, 0x1b, 0x5b, 0x21, 0x70, 0x1b, 0x5b, 0x3f, 0x33, 0x3b,
            0x34, 0x6c, 0x1b, 0x5b, 0x34, 0x6c, 0x1b, 0x3e, 0x1b, 0x5b, 0x3f,
            0x36, 0x39, 0x6c],
          none, w.errCode⟩) ∧
      clear_to .VtRis env w = (.ok (), ⟨w.written ++ [0x1b, 0x63], none, w.errCode⟩) ∧
      clear_to .VtLeaveAlt env w =
        (.ok (), ⟨w.written ++ [0x1b, 0x5b, 0x3f, 0x31, 0x30, 0x34, 0x39, 0x6c],
          none, w.errCode⟩)) ∧
    (∀ e : Error,
      (clear_to .XtermClear env w).1 = .error e ∨
      (clear_to .XtermReset env w).1 = .error e ∨
      (clear_to .VtRis env w).1 = .error e ∨
      (clear_to .VtLeaveAlt env w).1 = .error e →
      e = .Io w.errCode) := by
  constructor
  · intro hf
    rcases w with ⟨ws, fa, ec⟩
    cases hf
    refine ⟨?_, ?_, ?_, ?_⟩ <;>
      simp [clear_to, xterm_clear, writeChain, write_all, ESC, CSI, RIS,
        CURSOR_HOME, ERASE_SCREEN, ERASE_SCROLLBACK, STR,
        RESET_WIDTH_AND_SCROLL, RESET_REPLACE, RESET_KEYPAD, RESET_MARGINS,
        LEAVE_ALT]
  · intro e he
    rcases he with h | h | h | h <;>
      exact writeChain_error_code _ _ _ (by simpa [clear_to, xterm_clear] using h)

/-- C2 witness: on a fresh sink, `XtermClear` emits the eleven literal bytes. -/
theorem C2_witness :
    clear_to .XtermClear env0 w0 =
      (.ok (), ⟨[0x1b, 0x5b, 0x48, 0x1b, 0x5b, 0x32, 0x4a, 0x1b, 0x5b, 0x33, 0x4a],
        none, 0⟩) :=
  ((C2_fixed_sequences env0 w0).1 rfl).1

/-- C7: each external-command strategy maps a non-success exit status to
`Error.Command` carrying that command's name and that status, returns success
writing nothing to the sink when the command succeeds, and propagates a spawn
io error unchanged. -/
theorem C7_external_commands (env : Env) (w : Sink) :
    (∀ s : ExitStatus, env.tput_clear = .ok s →
      (s.success = false →
        clear_to .TputClear env w = (.error (.Command "tput clear" s), w)) ∧
      (s.success = true → clear_to .TputClear env w = (.ok (), w))) ∧
    (∀ e, env.tput_clear = .error e →
      clear_to .TputClear env w = (.error (.Io e), w)) ∧
    (∀ s : ExitStatus, env.tput_reset = .ok s →
      (s.success = false →
        clear_to .TputReset env w = (.error (.Command "tput reset" s), w)) ∧
      (s.success = true → clear_to .TputReset env w = (.ok (), w))) ∧
    (∀ e, env.tput_reset = .error e →
      clear_to .TputReset env w = (.error (.Io e), w)) ∧
    (∀ s : ExitStatus, env.cls = .ok s →
      (s.success = false →
        clear_to .Cls env w = (.error (.Command "cls" s), w)) ∧
      (s.success = true → clear_to .Cls env w = (.ok (), w))) ∧
    (∀ e, env.cls = .error e →
      clear_to .Cls env w = (.error (.Io e), w)) := by
  refine ⟨fun s hs => ⟨fun hns => ?_, fun hyes => ?_⟩, fun e he => ?_,
    fun s hs => ⟨fun hns => ?_, fun hyes => ?_⟩, fun e he => ?_,
    fun s hs => ⟨fun hns => ?_, fun hyes => ?_⟩, fun e he => ?_⟩ <;>
    simp_all [clear_to]

/-- C7 witness: in `env0`, `tput reset`'s status is 2 (failure), and the
returned error carries the name and that status; `cls` fails to spawn with io
error 5, which propagates. -/
theorem C7_witness :
    clear_to .TputReset env0 w0 = (.error (.Command "tput reset" ⟨2⟩), w0) ∧
    clear_to .Cls env0 w0 = (.error (.Io 5), w0) :=
  ⟨((C7_external_commands env0 w0).2.2.1 ⟨2⟩ rfl).1 rfl,
    (C7_external_commands env0 w0).2.2.2.2.2 5 rfl⟩

/-- C8: in the composite `WindowsVtClear` strategy, the fixed xterm-style
clear sequence is still written to the sink when the VT-mode-enable step
failed, and the VT-mode-enable error is then the one returned; when the sink
write also fails, the later (sink write) error wins. -/
theorem C8_windows_vt_clear (env : Env) (w : Sink) (e : Error)
    (hvt : env.win_vt = .error e) :
    (w.failAt = none →
      clear_to .WindowsVtClear env w =
        (.error e, ⟨w.written ++
          [0x1b, 0x5b, 0x48, 0x1b, 0x5b, 0x32, 0x4a, 0x1b, 0x5b, 0x33, 0x4a],
          none, w.errCode⟩)) ∧
    (∀ k, w.failAt = some k → k < 6 →
      (clear_to .WindowsVtClear env w).1 = .error (.Io w.errCode)) := by
  constructor
  · intro hf
    rcases w with ⟨ws, fa, ec⟩
    cases hf
    simp [clear_to, hvt, xterm_clear, writeChain, write_all, CSI,
      CURSOR_HOME, ERASE_SCREEN, ERASE_SCROLLBACK]
  · intro k hk hk6
    rcases w with ⟨ws, fa, ec⟩
    cases hk
    have hfail := writeChain_fail
      [CSI, CURSOR_HOME, CSI, ERASE_SCREEN, CSI, ERASE_SCROLLBACK] ws ec k
      (by simpa using hk6)
    simp only [clear_to, xterm_clear] at *
    rcases hres : writeChain ⟨ws, some k, ec⟩
        [CSI, CURSOR_HOME, CSI, ERASE_SCREEN, CSI, ERASE_SCROLLBACK] with ⟨r, w1⟩
    rw [hres] at hfail
    cases r with
    | ok _ => simp at hfail
    | error e2 => simp_all

/-- C8 witness: with VT-enable failing with nix error 3 and a fresh sink, the
clear bytes are written and the VT error is returned; with a sink failing on
its first write, the io error is returned instead. -/
theorem C8_witness :
    clear_to .WindowsVtClear
        { env0 with win_vt := .error (.Nix 3) } w0 =
      (.error (.Nix 3),
        ⟨[0x1b, 0x5b, 0x48, 0x1b, 0x5b, 0x32, 0x4a, 0x1b, 0x5b, 0x33, 0x4a],
          none, 0⟩) ∧
    (clear_to .WindowsVtClear
        { env0 with win_vt := .error (.Nix 3) } ⟨[], some 0, 9⟩).1 =
      .error (.Io 9) :=
  ⟨(C8_windows_vt_clear { env0 with win_vt := .error (.Nix 3) } w0 (.Nix 3) rfl).1 rfl,
    (C8_windows_vt_clear { env0 with win_vt := .error (.Nix 3) } ⟨[], some 0, 9⟩
      (.Nix 3) rfl).2 0 rfl (by decide)⟩

/-- C4: the zero-argument convenience executes exactly the strategy chosen by
the (spec-modelled) default resolution, and that resolution follows the
decision table — native-console platform chooses the combined native-console
strategy, POSIX-like with a usable capability database chooses the
combined-reset strategy, anything else the fixed xterm-style clear.  The
model is a total function, so no expected failure condition can abort. -/
theorem C4_default_resolution (p : Platform) (env : Env) (w : Sink) :
    clear p env w = clear_to (default_strategy p) env w ∧
    (p.native_console = true → default_strategy p = .WindowsVtClear) ∧
    (p.native_console = false → p.posix_like = true → p.db_usable = true →
      default_strategy p = .Terminfo) ∧
    (p.native_console = false → (p.posix_like && p.db_usable) = false →
      default_strategy p = .XtermClear) := by
  refine ⟨rfl, fun h => ?_, fun h1 h2 h3 => ?_, fun h1 h2 => ?_⟩ <;>
    simp_all [default_strategy]

/-- C4 witness: the decision table at the three concrete platform rows. -/
theorem C4_witness :
    default_strategy ⟨true, false, false⟩ = .WindowsVtClear ∧
    default_strategy ⟨false, true, true⟩ = .Terminfo ∧
    default_strategy ⟨false, true, false⟩ = .XtermClear :=
  ⟨(C4_default_resolution ⟨true, false, false⟩ env0 w0).2.1 rfl,
    (C4_default_resolution ⟨false, true, true⟩ env0 w0).2.2.1 rfl rfl rfl,
    (C4_default_resolution ⟨false, true, false⟩ env0 w0).2.2.2 rfl rfl⟩

/-- A group whose capabilities are all absent emits nothing and leaves the
context, the reset flag and the sink untouched. -/
theorem resetGroup_allNone (caps : List (Option Cap)) (ctx : Context) (r : Bool)
    (w : Sink) (h : caps.all Option.isNone = true) :
    resetGroup caps ctx r w = (.ok (), (ctx, r, w)) := by
  induction caps generalizing ctx r w with
  | nil => rfl
  | cons c rest ih =>
    cases c with
    | none =>
      simp only [List.all_cons, Bool.and_eq_true] at h
      simpa [resetGroup] using ih ctx r w h.2
    | some cap => simp at h

/-- On a never-failing sink, running a capability group appends exactly its
declarative emission, returns its final context, and raises the reset flag
exactly when some capability was available. -/
theorem resetGroup_emits (caps : List (Option Cap)) (ctx ctx' : Context)
    (r : Bool) (ws bs : List Nat) (ec : Nat)
    (h : groupEmits caps ctx = .ok (bs, ctx')) :
    resetGroup caps ctx r ⟨ws, none, ec⟩ =
      (.ok (), (ctx', r || caps.any Option.isSome, ⟨ws ++ bs, none, ec⟩)) := by
  induction caps generalizing ctx r ws bs with
  | nil =>
    simp only [groupEmits, Except.ok.injEq, Prod.mk.injEq] at h
    obtain ⟨h1, h2⟩ := h
    subst h1
    subst h2
    simp [resetGroup]
  | cons c rest ih =>
    cases c with
    | none =>
      simp only [groupEmits] at h
      simpa [resetGroup, List.any_cons] using ih ctx r ws bs h
    | some cap =>
      rcases hexp : cap.expandFn ctx with e | ⟨bs1, ctx1⟩
      · simp [groupEmits, hexp] at h
      · rcases hrest : groupEmits rest ctx1 with e | ⟨bs2, ctx2⟩
        · simp [groupEmits, hexp, hrest] at h
        · simp only [groupEmits, hexp, hrest, Except.ok.injEq, Prod.mk.injEq] at h
          obtain ⟨h1, h2⟩ := h
          subst h1
          subst h2
          have := ih ctx1 true (ws ++ bs1) bs2 hrest
          simp [resetGroup, expandTo, hexp, write_all, this, List.append_assoc]

/-- On a never-failing sink, when some first-group capability is available and
the group's expansions succeed, `TerminfoReset` succeeds emitting exactly the
group-1 expansion (the second group plays no part). -/
theorem clear_to_reset_rs (env : Env) (info : Database) (ws bs : List Nat)
    (ec : Nat) (ctx' : Context) (hdb : env.db = .ok info)
    (hany : (rsGroup info).any Option.isSome = true)
    (hem : groupEmits (rsGroup info) Context.default = .ok (bs, ctx')) :
    clear_to .TerminfoReset env ⟨ws, none, ec⟩ = (.ok (), ⟨ws ++ bs, none, ec⟩) := by
  simp only [clear_to, hdb]
  rw [resetGroup_emits _ _ _ _ _ _ _ hem]
  simp [hany]

/-- C1: for `TerminfoReset`, `clear_to` expands and emits every available
capability among rs1, rs2, rs3, rf sharing one expansion context; if at least
one of that first group was available it returns success without consulting
is1, is2, is3, if at all (the result is the same for every database agreeing
on the first group); otherwise it emits every available capability of the
second group, succeeding if any was available; if no capability in either
group is available it returns a missing-capability error naming "reset". -/
theorem C1_terminfo_reset (env : Env) (info : Database) (w : Sink)
    (hdb : env.db = .ok info) (hfail : w.failAt = none) :
    (∀ bs ctx', (rsGroup info).any Option.isSome = true →
      groupEmits (rsGroup info) Context.default = .ok (bs, ctx') →
      clear_to .TerminfoReset env w =
        (.ok (), ⟨w.written ++ bs, none, w.errCode⟩)) ∧
    (∀ bs ctx' (env' : Env) (info' : Database),
      (rsGroup info).any Option.isSome = true →
      groupEmits (rsGroup info) Context.default = .ok (bs, ctx') →
      env'.db = .ok info' → rsGroup info' = rsGroup info →
      clear_to .TerminfoReset env' w = clear_to .TerminfoReset env w) ∧
    (∀ bs ctx', (rsGroup info).all Option.isNone = true →
      (isGroup info).any Option.isSome = true →
      groupEmits (isGroup info) Context.default = .ok (bs, ctx') →
      clear_to .TerminfoReset env w =
        (.ok (), ⟨w.written ++ bs, none, w.errCode⟩)) ∧
    ((rsGroup info).all Option.isNone = true →
      (isGroup info).all Option.isNone = true →
      clear_to .TerminfoReset env w = (.error (.TerminfoCap "reset"), w)) := by
  rcases w with ⟨ws, fa, ec⟩
  cases hfail
  refine ⟨fun bs ctx' hany hem => ?_, fun bs ctx' env' info' hany hem hdb' hrs => ?_,
    fun bs ctx' hnone hany hem => ?_, fun hnone hnone2 => ?_⟩
  · exact clear_to_reset_rs env info ws bs ec ctx' hdb hany hem
  · rw [clear_to_reset_rs env info ws bs ec ctx' hdb hany hem,
      clear_to_reset_rs env' info' ws bs ec ctx' hdb'
        (by rw [hrs]; exact hany) (by rw [hrs]; exact hem)]
  · simp only [clear_to, hdb]
    rw [resetGroup_allNone _ _ _ _ hnone]
    simp only [Bool.false_eq_true, if_false]
    rw [resetGroup_emits _ _ _ _ _ _ _ hem]
    simp [hany]
  · simp only [clear_to, hdb]
    rw [resetGroup_allNone _ _ _ _ hnone]
    simp only [Bool.false_eq_true, if_false]
    rw [resetGroup_allNone _ _ _ _ hnone2]
    simp

/-- C1 witness: a database with rs2 and rf available (threading the context
token) emits both and succeeds; the empty database yields the
missing-capability error naming "reset". -/
theorem C1_witness :
    clear_to .TerminfoReset (envOf dbRs) w0 = (.ok (), ⟨[0, 1], none, 0⟩) ∧
    clear_to .TerminfoReset env0 w0 = (.error (.TerminfoCap "reset"), w0) :=
  ⟨(C1_terminfo_reset (envOf dbRs) dbRs w0 rfl rfl).1 [0, 1] ⟨2⟩ rfl rfl,
    (C1_terminfo_reset env0 dbEmpty w0 rfl rfl).2.2.2 rfl rfl⟩

/-- C3: for the combined `Terminfo` strategy, an absent primary screen-clear
capability means no bytes are written and a missing-capability error naming
"clear" is returned; when the primary capability is present but the
scrollback-erase capability is absent, exactly the primary expansion is
written and the call succeeds. -/
theorem C3_terminfo_combined (env : Env) (info : Database) (w : Sink)
    (hdb : env.db = .ok info) :
    (info.clearScreen = none →
      clear_to .Terminfo env w = (.error (.TerminfoCap "clear"), w)) ∧
    (∀ c bs ctx1, info.clearScreen = some c → info.user3 = none →
      c.expandFn Context.default = .ok (bs, ctx1) → w.failAt = none →
      clear_to .Terminfo env w = (.ok (), ⟨w.written ++ bs, none, w.errCode⟩)) := by
  constructor
  · intro hnone
    simp [clear_to, hdb, hnone]
  · intro c bs ctx1 hc hu hexp hfail
    rcases w with ⟨ws, fa, ec⟩
    cases hfail
    simp [clear_to, hdb, hc, hu, expandTo, hexp, write_all]

/-- C3 witness: with only the primary capability present, its two bytes are
written and the call succeeds; with the empty database nothing is written and
the error names "clear". -/
theorem C3_witness :
    clear_to .Terminfo (envOf dbClearOnly) w0 = (.ok (), ⟨[7, 8], none, 0⟩) ∧
    clear_to .Terminfo env0 w0 = (.error (.TerminfoCap "clear"), w0) :=
  ⟨(C3_terminfo_combined (envOf dbClearOnly) dbClearOnly w0 rfl).2
      (capConst [7, 8]) [7, 8] Context.default rfl rfl rfl rfl,
    (C3_terminfo_combined env0 dbEmpty w0 rfl).1 rfl⟩

/-- C9: the screen-only and scrollback-only strategies look up exactly one
capability — when absent the call fails with a missing-capability error
naming it ("clear" for `TerminfoScreen`, "E3" for `TerminfoScrollback`),
writing nothing; when present, the capability is expanded at the default
context (no shared context) and its bytes are emitted. -/
theorem C9_single_capability (env : Env) (info : Database) (w : Sink)
    (hdb : env.db = .ok info) :
    (info.clearScreen = none →
      clear_to .TerminfoScreen env w = (.error (.TerminfoCap "clear"), w)) ∧
    (∀ c bs ctx1, info.clearScreen = some c →
      c.expandFn Context.default = .ok (bs, ctx1) → w.failAt = none →
      clear_to .TerminfoScreen env w =
        (.ok (), ⟨w.written ++ bs, none, w.errCode⟩)) ∧
    (info.user3 = none →
      clear_to .TerminfoScrollback env w = (.error (.TerminfoCap "E3"), w)) ∧
    (∀ c bs ctx1, info.user3 = some c →
      c.expandFn Context.default = .ok (bs, ctx1) → w.failAt = none →
      clear_to .TerminfoScrollback env w =
        (.ok (), ⟨w.written ++ bs, none, w.errCode⟩)) := by
  refine ⟨fun hnone => ?_, fun c bs ctx1 hc hexp hfail => ?_,
    fun hnone => ?_, fun c bs ctx1 hc hexp hfail => ?_⟩
  · simp [clear_to, hdb, hnone]
  · rcases w with ⟨ws, fa, ec⟩
    cases hfail
    simp [clear_to, hdb, hc, expandTo, hexp, write_all]
  · simp [clear_to, hdb, hnone]
  · rcases w with ⟨ws, fa, ec⟩
    cases hfail
    simp [clear_to, hdb, hc, expandTo, hexp, write_all]

/-- C9 witness: `TerminfoScreen` on the empty database errors naming "clear";
`TerminfoScrollback` with `E3` present emits its expansion. -/
theorem C9_witness :
    clear_to .TerminfoScreen env0 w0 = (.error (.TerminfoCap "clear"), w0) ∧
    clear_to .TerminfoScrollback (envOf dbE3) w0 = (.ok (), ⟨[4], none, 0⟩) :=
  ⟨(C9_single_capability env0 dbEmpty w0 rfl).1 rfl,
    (C9_single_capability (envOf dbE3) dbE3 w0 rfl).2.2.2
      (capConst [4]) [4] Context.default rfl rfl rfl⟩

/-- C10: in the combined `Terminfo` strategy only the *absence* of the
scrollback capability is tolerated — when it is present, a failure expanding
it, or a sink failure writing its bytes, is returned by `clear_to`, even
though the primary clear sequence has already been written to the sink. -/
theorem C10_scrollback_failure_not_atomic (env : Env) (info : Database)
    (w : Sink) (c c3 : Cap) (bs1 : List Nat) (ctx1 : Context)
    (hdb : env.db = .ok info) (hc : info.clearScreen = some c)
    (h3 : info.user3 = some c3)
    (hexp : c.expandFn Context.default = .ok (bs1, ctx1)) :
    (∀ e, w.failAt = none → c3.expandFn ctx1 = .error e →
      clear_to .Terminfo env w =
        (.error (.Terminfo e), ⟨w.written ++ bs1, none, w.errCode⟩)) ∧
    (∀ bs2 ctx2, w.failAt = some 1 → c3.expandFn ctx1 = .ok (bs2, ctx2) →
      clear_to .Terminfo env w =
        (.error (.Io w.errCode), ⟨w.written ++ bs1, some 0, w.errCode⟩)) := by
  constructor
  · intro e hfail h3e
    rcases w with ⟨ws, fa, ec⟩
    cases hfail
    simp [clear_to, hdb, hc, h3, expandTo, hexp, write_all, h3e]
  · intro bs2 ctx2 hfail h3ok
    rcases w with ⟨ws, fa, ec⟩
    cases hfail
    simp [clear_to, hdb, hc, h3, expandTo, hexp, write_all, h3ok]

/-- C10 witness: primary emits `[7, 8]`; a failing scrollback expansion
returns the terminfo error with the primary bytes already in the sink; a sink
that fails on its second write returns the io error likewise. -/
theorem C10_witness :
    clear_to .Terminfo (envOf dbClearFailE3) w0 =
      (.error (.Terminfo 6), ⟨[7, 8], none, 0⟩) ∧
    clear_to .Terminfo (envOf dbClearE3) ⟨[], some 1, 9⟩ =
      (.error (.Io 9), ⟨[7, 8], some 0, 9⟩) :=
  ⟨(C10_scrollback_failure_not_atomic (envOf dbClearFailE3) dbClearFailE3
      w0 (capConst [7, 8]) (capFail 6) [7, 8] Context.default
      rfl rfl rfl rfl).1 6 rfl rfl,
    (C10_scrollback_failure_not_atomic (envOf dbClearE3) dbClearE3
      ⟨[], some 1, 9⟩ (capConst [7, 8]) (capConst [4]) [7, 8] Context.default
      rfl rfl rfl rfl).2 [4] Context.default rfl rfl⟩

/-- The exact attribute record `VtCooked` hands to `tcsetattr`. -/
def cookedTermios : Termios :=
  ⟨{.BRKINT, .ICRNL, .IGNPAR, .ISTRIP, .IXON}, {.OPOST}, ∅, {.ICANON, .ISIG}⟩

/-- The exact attribute record `VtWellDone` hands to `tcsetattr`. -/
def wellDoneTermios : Termios :=
  ⟨{.BRKINT, .ICRNL, .IUTF8, .IGNPAR, .IMAXBEL, .ISTRIP, .IXON},
    {.ONLCR, .OPOST}, {.CREAD}, {.ICANON, .ISIG}⟩

/-- `reset_termios` clears all four groups completely. -/
theorem reset_termios_empty (t : Termios) : reset_termios t = ⟨∅, ∅, ∅, ∅⟩ := by
  simp [reset_termios]

/-- Whatever attributes were read, `write_termios` writes the mutator applied
to the fully cleared record: every bit of every group is reset first. -/
theorem write_termios_ok (f : Termios → Termios) (env : TtyEnv) (t : Termios)
    (h : write_termios f env = .ok t) : t = f ⟨∅, ∅, ∅, ∅⟩ := by
  obtain ⟨ia, gs, ot, gt, ss, st⟩ := env
  rcases ia with e | b
  · simp [write_termios] at h
  · cases b
    · rcases ot with e | u
      · simp [write_termios] at h
      · rcases gt with e | t0
        · simp [write_termios] at h
        · rcases st with _ | e
          · simp only [write_termios, Except.ok.injEq] at h
            rw [← h, reset_termios_empty]
          · simp [write_termios] at h
    · rcases gs with e | t0
      · simp [write_termios] at h
      · rcases ss with _ | e
        · simp only [write_termios, Except.ok.injEq] at h
          rw [← h, reset_termios_empty]
        · simp [write_termios] at h

/-- C5: applying the cooked mutator clears all four flag groups and produces
exactly BRKINT, ICRNL, IGNPAR, ISTRIP, IXON on input, OPOST on output,
nothing on control, and ICANON, ISIG on local — no other bit in any group. -/
theorem C5_vt_cooked_exact (env : TtyEnv) (t : Termios)
    (h : vt_cooked env = .ok t) :
    t = cookedTermios ∧
    (∀ t0 : Termios, vt_cooked_flags (reset_termios t0) = cookedTermios) := by
  have hall : ∀ t0 : Termios, vt_cooked_flags (reset_termios t0) = cookedTermios := by
    intro t0
    rw [reset_termios_empty]
    decide
  refine ⟨?_, hall⟩
  rw [write_termios_ok vt_cooked_flags env t h]
  decide

/-- C5 witness: on a tty whose calls all succeed, `VtCooked` writes exactly
the cooked record. -/
theorem C5_witness : vt_cooked tty0 = .ok cookedTermios := by
  have h : vt_cooked tty0 = .ok (vt_cooked_flags ⟨∅, ∅, ∅, ∅⟩) := rfl
  rw [h, ((C5_vt_cooked_exact tty0 (vt_cooked_flags ⟨∅, ∅, ∅, ∅⟩) h).1 : _)]

/-- C6: the flag set `VtWellDone` writes is a strict superset of the one
`VtCooked` writes: it contains every cooked bit, and additionally exactly
IUTF8 and IMAXBEL on input, ONLCR on output, and CREAD on control. -/
theorem C6_well_done_superset (env env' : TtyEnv) (t t' : Termios)
    (hc : vt_cooked env = .ok t) (hw : vt_well_done env' = .ok t') :
    (t.input_flags ⊆ t'.input_flags ∧ t.output_flags ⊆ t'.output_flags ∧
      t.control_flags ⊆ t'.control_flags ∧ t.local_flags ⊆ t'.local_flags) ∧
    t'.input_flags = t.input_flags ∪ {.IUTF8, .IMAXBEL} ∧
    t.input_flags ∩ {InputFlag.IUTF8, InputFlag.IMAXBEL} = ∅ ∧
    t'.output_flags = t.output_flags ∪ {.ONLCR} ∧
    t.output_flags ∩ {OutputFlag.ONLCR} = ∅ ∧
    t'.control_flags = t.control_flags ∪ {.CREAD} ∧
    t.control_flags ∩ {ControlFlag.CREAD} = ∅ ∧
    t'.local_flags = t.local_flags ∧ t ≠ t' := by
  have h1 := write_termios_ok vt_cooked_flags env t hc
  have h2 := write_termios_ok vt_well_done_flags env' t' hw
  subst h1
  subst h2
  decide

/-- C6 witness: the strict-superset relation at the concrete tty environment. -/
theorem C6_witness :
    vt_well_done_flags ⟨∅, ∅, ∅, ∅⟩ ≠ vt_cooked_flags ⟨∅, ∅, ∅, ∅⟩ :=
  Ne.symm ((C6_well_done_superset tty0 tty0
    (vt_cooked_flags ⟨∅, ∅, ∅, ∅⟩) (vt_well_done_flags ⟨∅, ∅, ∅, ∅⟩)
    rfl rfl).2.2.2.2.2.2.2.2)

end Clearscreen
